import Mathlib

/-!
Shallow embedding of the conversational-bot program in `src/main.py`
(repository shamsikngg/couchbyforyou) and proofs about its behaviour.

Strings submitted by users are modelled either as Lean `String`s (where
only concrete keyword comparison matters) or as lists of Unicode code
points (`List Nat`, where character-level transformations are proved).
Database rows, the FSM session of the aiogram dispatcher, and the two
scheduler loops are modelled as explicit data; exceptions raised by the
external collaborators (GigaChat, Telegram transport, sqlite) are
modelled as `Except`/`Option` parameters, and a `try/except` block in
the source becomes a `caught` constructor in the result type.
-/

namespace Couch

/-! ## Text helpers -/

/-- Code points of Python `string.punctuation`: ASCII 33–47, 58–64, 91–96, 123–126. -/
def pyPunct (n : Nat) : Bool :=
  (33 ≤ n && n ≤ 47) || (58 ≤ n && n ≤ 64) || (91 ≤ n && n ≤ 96) || (123 ≤ n && n ≤ 126)

/-- ASCII whitespace stripped by Python `str.strip` (space, tab, LF, VT, FF, CR). -/
def pySpace (n : Nat) : Bool :=
  n = 32 || n = 9 || n = 10 || n = 11 || n = 12 || n = 13

/-- Code-point model of Python `str.lower` restricted to the alphabets the
program manipulates: ASCII A–Z and Cyrillic А–Я / Ё. Other code points are
left unchanged. -/
def pyLowerCode (n : Nat) : Nat :=
  if 65 ≤ n && n ≤ 90 then n + 32
  else if 1040 ≤ n && n ≤ 1071 then n + 32
  else if n = 1025 then 1105
  else n

/-- An ASCII uppercase letter (A–Z). -/
def isAsciiUpper (n : Nat) : Bool := 65 ≤ n && n ≤ 90

/-- Python `str.strip`: drop leading and trailing whitespace. -/
def pyStrip (l : List Nat) : List Nat :=
  ((l.dropWhile pySpace).reverse.dropWhile pySpace).reverse

/-- `normalize_text` from `src/main.py` (lines 166–168):
`s.lower().strip().translate(str.maketrans('', '', string.punctuation))`,
i.e. lowercase, then strip, then delete every punctuation character. -/
def normalize_text (s : List Nat) : List Nat :=
  (pyStrip (s.map pyLowerCode)).filter (fun c => !pyPunct c)

/-- `clean_format` from `src/main.py` (lines 170–179): empty/None text maps
to the empty string; otherwise `#` is removed, `**` becomes `"`, `*` is
removed. -/
def clean_format (t : String) : String :=
  if t = "" then "" else ((t.replace "#" "").replace "**" "\"").replace "*" ""

/-- Character-level model of Python `str.lower` (same alphabets as
`pyLowerCode`), used where the program lowercases whole messages. -/
def pyLowerChar (c : Char) : Char :=
  if 65 ≤ c.toNat && c.toNat ≤ 90 then Char.ofNat (c.toNat + 32)
  else if 1040 ≤ c.toNat && c.toNat ≤ 1071 then Char.ofNat (c.toNat + 32)
  else if c.toNat = 1025 then Char.ofNat 1105
  else c

/-- `message.text.lower()` as a `String` transformation. -/
def pyLowerStr (s : String) : String := String.mk (s.data.map pyLowerChar)

/-- The global exit keywords checked by `process_personal_ai`
(`src/main.py` line 366). -/
def exitKeywords : List String := ["стоп", "выход", "stop", "exit"]

/-! ## Dialogue sessions (aiogram FSM states) -/

/-- The per-user FSM session: which flow is active and what has been
collected so far. `idle` is the cleared state (`state.clear()`). -/
inductive FlowState where
  | idle
  | personalAI
  | perspectiveProblem (problem : Option String)
  | contractGoal
  | contractDeadline (goal : String)
  | contractStake (goal deadline : String)
  | legacyMemory
  | legacyLessons (memory : String)
  | mindprintQ1
  | mindprintQ2 (q1 : String)
  | mindprintQ3 (q1 q2 : String)
  deriving DecidableEq

/-- One row of the `users` profile table as read by the dialogue handlers. -/
structure ProfileRow where
  current_self : Option String
  fear : Option String
  dream : Option String
  core_values : Option String
  vision : Option String
  deriving DecidableEq

/-- The profile store, keyed by user id. -/
abbrev ProfileStore := List (Nat × ProfileRow)

/-- `process_personal_ai` (`src/main.py` lines 364–405). The handler first
checks the exit keywords against `message.text.lower()`; on exit it sends
"Сеанс завершен." and clears the state. Otherwise it only SELECTs from the
profile store (never writes) and answers with the GigaChat reply
(`clean_format`ed), with `"Ошибка: " ++ e` if the call raises, or with the
static notice when no credentials are configured. `giga` is the outcome of
the collaborator call. -/
def process_personal_ai (creds : Bool) (giga : Except String String)
    (text : String) (store : ProfileStore) :
    List String × FlowState × ProfileStore :=
  if pyLowerStr text ∈ exitKeywords then
    (["Сеанс завершен."], FlowState.idle, store)
  else if creds then
    match giga with
    | Except.ok t => ([clean_format t], FlowState.personalAI, store)
    | Except.error e => (["Ошибка: " ++ e], FlowState.personalAI, store)
  else
    (["🧠 Мозг не подключен."], FlowState.personalAI, store)

/-- Prompt sent by `contract_goal` (`src/main.py` line 617). -/
def contractDeadlinePrompt : String :=
  "2. **Установи ДЕДЛАЙН.** (Дата или срок, например: \x27до 1 марта\x27 или \x27через неделю\x27)"

/-- `contract_goal` (`src/main.py` lines 614–618): any message received in
`ContractState.waiting_for_goal` is stored as the goal and the flow
advances to `waiting_for_deadline`. There is no exit-keyword check. -/
def contract_goal (text : String) : List String × FlowState :=
  ([contractDeadlinePrompt], FlowState.contractDeadline text)

/-- Prompt sent by `contract_deadline` (`src/main.py` lines 623–631). -/
def contractStakePrompt : String :=
  "3. **Назначь ЦЕНУ СЛОВА (ШТРАФ).**\nЧто ты сделаешь, если провалишься? Это должно быть больно.\nПримеры:\n- \x27Отправлю 5000р врагу\x27\n- \x27Сбрею брови\x27\n- \x27Не буду пить кофе месяц\x27\n\nПиши свою ставку:"

/-- `contract_deadline` (`src/main.py` lines 620–632): stores the deadline
and advances to `waiting_for_stake`; no exit-keyword check. -/
def contract_deadline (goal text : String) : List String × FlowState :=
  ([contractStakePrompt], FlowState.contractStake goal text)

/-- A persisted row of the `contracts` table. -/
structure ContractRow where
  user_id : Nat
  goal : String
  deadline : String
  stake : String
  deriving DecidableEq

/-- The certificate text built by `contract_stake` on a successful insert
(`src/main.py` lines 652–663); `now` is `int(time.time())`. -/
def contractCertificate (now : Int) (firstName goal deadline stakeText : String) : String :=
  "📜 **КОНТРАКТ С БУДУЩИМ №" ++ toString now ++ "**\n" ++
  "-----------------------------------\n" ++
  "👤 **УЧАСТНИК:** " ++ firstName ++ "\n" ++
  "🎯 **ЦЕЛЬ:** " ++ goal ++ "\n" ++
  "⏳ **СРОК:** " ++ deadline ++ "\n" ++
  "💀 **ШТРАФ:** " ++ stakeText ++ "\n" ++
  "-----------------------------------\n" ++
  "✅ **ПОДПИСАНО КРОВЬЮ (цифровой).**\n\n" ++
  "Я (Бот) свидетельствую.\n" ++
  "Нарушишь — будешь знать, что ты трепло."

/-- `contract_stake` (`src/main.py` lines 634–669), the final Futures
Contract step. `writeErr = none` models a successful sqlite INSERT (the
row is appended and the certificate sent); `writeErr = some e` models a
raised exception (caught, only `"Ошибка при подписании: " ++ e` is sent).
In BOTH branches the handler then falls through to `await state.clear()`,
which sits outside the try/except, so the session always ends `idle`. -/
def contract_stake (writeErr : Option String) (now : Int) (firstName : String)
    (userId : Nat) (goal deadline stakeText : String) (contracts : List ContractRow) :
    List String × FlowState × List ContractRow :=
  match writeErr with
  | none =>
      ([contractCertificate now firstName goal deadline stakeText],
       FlowState.idle, contracts ++ [⟨userId, goal, deadline, stakeText⟩])
  | some e => (["Ошибка при подписании: " ++ e], FlowState.idle, contracts)

/-- `process_perspective_problem` (`src/main.py` lines 501–514): any
message received in `PerspectiveState.waiting_for_problem` is stored via
`update_data(problem=...)` and the persona keyboard is shown; the FSM
state is NOT changed ("Don't reset state yet"), so the session stays in
the problem step with the text captured. No exit-keyword check. -/
def process_perspective_problem (text : String) : List String × FlowState :=
  (["Принято: \"" ++ text ++ "\"\n\n**Чьими глазами посмотрим на это?**"],
   FlowState.perspectiveProblem (some text))

/-- Prompt sent by `legacy_memory` (`src/main.py` lines 688–691). -/
def legacyLessonsPrompt : String :=
  "2. \"Назови 3 главных урока твоей жизни.\"\n(Истины, к которым ты пришел через боль и опыт)"

/-- `legacy_memory` (`src/main.py` lines 685–692): stores any message as
the memory answer and advances to `waiting_for_lessons`; no exit-keyword
check. -/
def legacy_memory (text : String) : List String × FlowState :=
  ([legacyLessonsPrompt], FlowState.legacyLessons text)

/-- `legacy_lessons` (`src/main.py` lines 799–845), the final Legacy
step: any message is consumed as the lessons answer (it is fed, with the
stored memory, into the GigaChat prompt), the progress message is sent,
then either the rendered manifesto photo caption, the caught-exception
message, or the no-credentials notice — and in every branch the handler
ends with `await state.clear()`. `giga` is the outcome of the whole
try-block (generation plus rendering). -/
def legacy_lessons (creds : Bool) (giga : Except String String)
    (memory lessons : String) : List String × FlowState :=
  let first := "⏳ **Гравирую на цифровом камне...**"
  if creds then
    match giga with
    | Except.ok _ =>
        ([first, "💎 **Твое Наследие.**\nСохрани этот камень."], FlowState.idle)
    | Except.error e => ([first, "Ошибка каменотеса: " ++ e], FlowState.idle)
  else
    ([first, "Мозг не подключен. (Нет GigaChat токена)"], FlowState.idle)

/-- Prompt sent by `mp_q1` (`src/main.py` line 961). -/
def mpQ2Prompt : String := "2. **Источник Решений?**\n(Анализ/Факты или Интуиция/Чуйка?)"

/-- `mp_q1` (`src/main.py` lines 958–962): stores any message as answer
q1 and advances to `waiting_for_q2`; no exit-keyword check. -/
def mp_q1 (text : String) : List String × FlowState :=
  ([mpQ2Prompt], FlowState.mindprintQ2 text)

/-- Prompt sent by `mp_q2` (`src/main.py` line 967). -/
def mpQ3Prompt : String := "3. **Враг повержен. Действие?**\n(Добить, Пройти мимо, Помочь?)"

/-- `mp_q2` (`src/main.py` lines 964–968): stores any message as answer
q2 and advances to `waiting_for_q3`; no exit-keyword check. -/
def mp_q2 (q1 text : String) : List String × FlowState :=
  ([mpQ3Prompt], FlowState.mindprintQ3 q1 text)

/-- `mp_q3` (`src/main.py` lines 970–1032), the final Mindprint step: any
message is consumed as the third answer (fed into the GigaChat prompt
with q1 and q2), then the photo caption, the caught-exception message, or
the no-credentials notice is sent, and every branch ends with
`await state.clear()`. The TITLE/DESC/STATS parsing of the GigaChat reply
(lines 996–1019) only shapes the caption and is abstracted by
`parsedTitle`; the session behaviour does not depend on it. -/
def mp_q3 (creds : Bool) (giga : Except String String) (parsedTitle : String)
    (q1 q2 text : String) : List String × FlowState :=
  let first := "🧠 **Обработка нейропаттернов...**"
  if creds then
    match giga with
    | Except.ok _ =>
        ([first, "🧬 **Твой Mindprint:**\n" ++ parsedTitle], FlowState.idle)
    | Except.error e => ([first, "Ошибка скана: " ++ e], FlowState.idle)
  else
    ([first, "Мозг не подключен."], FlowState.idle)

/-! ## Subscription activation -/

/-- Subscription fields of a `users` row. -/
structure UserSub where
  user_id : Nat
  subscription_status : String
  subscription_start_date : Option Int
  subscription_expiry : Option Int
  deriving DecidableEq

/-- The UPDATE executed by `process_successful_payment`
(`src/main.py` lines 1460–1471) and likewise inside
`cb_blackbox_unlock_dev` (lines 1416–1424): unconditionally
`SET subscription_status='active', subscription_expiry=now+30d,
subscription_start_date=now`, with no guard on the previous status or on
an existing start date. -/
def process_successful_payment_update (now : Int) (u : UserSub) : UserSub :=
  { u with
    subscription_status := "active",
    subscription_expiry := some (now + 30 * 86400),
    subscription_start_date := some now }

/-! ## Day cursor and morning/evening scheduler -/

/-- Day-number computation of `morning_protocol` (`src/main.py` lines
1660–1666): `day_num = 1`, and if a start timestamp is present,
`day_num = (now - start).days + 1`. Timestamps are in seconds;
`timedelta.days` is floored division by 86400 (`Int.fdiv`). A missing
(or unparsable) start date leaves `day_num = 1`. -/
def day_number (now : Int) (startDate : Option Int) : Int :=
  match startDate with
  | none => 1
  | some t => Int.fdiv (now - t) 86400 + 1

/-- The `PROTOCOL_7` content catalog (`src/main.py` lines 1563–1645):
title and task for days 1–7, nothing outside that range. -/
def PROTOCOL_7 (d : Int) : Option (String × String) :=
  if d = 1 then some ("ДОФАМИНОВОЕ ГОЛОДАНИЕ",
    "Сегодня мы перезагружаем твой мозг.\nТвои рецепторы выжжены дешевым кайфом.\n\nЗАПРЕТЫ НА 24 ЧАСА:\n🚫 Социальные сети (Удали приложения).\n🚫 Сахар и фастфуд.\n🚫 Игры и YouTube.\n🚫 Музыка (Только тишина).\n\nТвоя задача — почувствовать скуку. Скука — это начало действий.")
  else if d = 2 then some ("ЦИФРОВАЯ ТИШИНА",
    "Твой телефон — это поводок. Сегодня ты его снимаешь.\n\nЗАДАНИЕ:\n1. Отключи ВСЕ уведомления (кроме звонков от близких).\n2. Переведи экран в Черно-Белый режим (Настройки -> Экрана).\n3. Не бери телефон в руки первый час после пробуждения.\n\nПослушай свои мысли, а не шум извне.")
  else if d = 3 then some ("MEMENTO MORI",
    "Ты умрешь. Это единственная гарантия.\nБольшинство живут так, будто у них в запасе вечность.\n\nЗАДАНИЕ:\nНапиши свою эпитафию (надпись на могиле).\nЧто там будет? \x27Он просидел жизнь в ТикТоке\x27?\nНапиши один абзац: как тебя ДОЛЖНЫ запомнить.\nИ сравни с тем, кто ты есть сейчас.")
  else if d = 4 then some ("АУДИТ 80/20",
    "Закон Парето: 20% усилий дают 80% результата.\nОстальное — суета и имитация деятельности.\n\nЗАДАНИЕ:\nВыпиши 10 дел, которые ты делал вчера.\nВычеркни 8 из них, которые не ведут к твоей Главной Цели.\nОставь 2. Сфокусируйся только на них сегодня.")
  else if d = 5 then some ("ОХОТА НА СТРАХ",
    "Страх — это компас. Он показывает, куда тебе надо идти.\n\nЗАДАНИЕ:\nСделай сегодня ОДНО действие, которое вызывает социальный дискомфорт.\n- Попроси скидку там, где её не дают.\n- Заговори с незнакомцем.\n- Скажи \x27Нет\x27, когда привык соглашаться.\n\nСломай шаблон.")
  else if d = 6 then some ("ГЛУБОКАЯ РАБОТА",
    "Мир принадлежит тем, кто умеет фокусироваться.\n\nЗАДАНИЕ:\nВыдели блок из 4 часов.\nУбери телефон в другую комнату.\nЗаймись только ОДНОЙ самой сложной задачей.\nНе вставай, пока не закончишь (или пока не пройдет время).")
  else if d = 7 then some ("РЕВЬЮ И КОРРЕКЦИЯ",
    "Неделя прошла. Ты стал лучше или просто старше?\n\nЗАДАНИЕ:\nОцени свой прогресс по шкале 1-10.\nЧто сработало? Что мешало?\nСкорректируй план на следующую неделю.\n\nТы в игре. Не останавливайся.")
  else none

/-- Python `f"{x}"` applied to a nullable column. -/
def pyStr : Option String → String
  | none => "None"
  | some s => s

/-- A `users` row as read by the morning SELECT (`src/main.py` line 1655). -/
structure UserRow where
  user_id : Nat
  full_name : Option String
  dream : Option String
  fear : Option String
  subscription_start_date : Option Int
  subscription_status : String
  deriving DecidableEq

/-- Static fallback morning text (`src/main.py` line 1689). -/
def morningStatic : String := "☀️ \"ВСТАВАЙ, САМУРАЙ.\"\nЦель сама себя не достигнет."

/-- Locked-content notice appended for non-active users (line 1696). -/
def lockNotice : String := "\n\n(🔒 Доступ к Курсу закрыт. Оплати, чтобы получить задание.)"

/-- Suffix appended to every delivered morning message (line 1698). -/
def morningSuffix : String := "\n\n👇 \"Напиши 3 главные задачи на сегодня:\""

/-- The premium (fixed-catalog) morning message body (lines 1674–1678). -/
def premiumMessage (dayNum : Int) (title task goal : String) : String :=
  "☀️ \"ДЕНЬ " ++ toString dayNum ++ ": " ++ title ++ "\"\n\n" ++ task ++ "\n\nЦель: " ++ goal

/-- Outcome of one iteration of the morning loop body for one user.
`premium`/`fallback` record which branch of
`if status == 'active' and content:` built the delivered message;
`caught e` means an exception reached the per-user `except` (printed and
the loop continues), in which case nothing was delivered to that user. -/
inductive MorningResult where
  | premium (msg : String)
  | fallback (msg : String)
  | caught (err : String)
  deriving DecidableEq

/-- Whether the fixed-catalog branch delivered a message. -/
def MorningResult.isPremium : MorningResult → Bool
  | MorningResult.premium _ => true
  | _ => false

/-- Per-user body of `morning_protocol` (`src/main.py` lines 1658–1700).
`creds` is `GIGACHAT_CREDENTIALS`; `giga` the outcome of the collaborator
call (only reached on the fallback branch — note the call is NOT wrapped
in its own try, so a failure aborts the iteration before the
locked-content notice and the send); `sendErr` the outcome of
`bot.send_message`. -/
def morning_user (creds : Bool) (giga : Except String String) (sendErr : Option String)
    (now : Int) (u : UserRow) : MorningResult :=
  let dayNum := day_number now u.subscription_start_date
  let fb : MorningResult :=
    if creds then
      match giga with
      | Except.error e => MorningResult.caught e
      | Except.ok t =>
          let m := clean_format t
          let m := if u.subscription_status ≠ "active" then m ++ lockNotice else m
          match sendErr with
          | none => MorningResult.fallback (m ++ morningSuffix)
          | some e => MorningResult.caught e
    else
      let m := if u.subscription_status ≠ "active" then morningStatic ++ lockNotice
               else morningStatic
      match sendErr with
      | none => MorningResult.fallback (m ++ morningSuffix)
      | some e => MorningResult.caught e
  if u.subscription_status = "active" then
    match PROTOCOL_7 dayNum with
    | some c =>
        (match sendErr with
         | none => MorningResult.premium
             (premiumMessage dayNum c.1 c.2 (pyStr u.dream) ++ morningSuffix)
         | some e => MorningResult.caught e)
    | none => fb
  else fb

/-- Columns of the `users` table as created (and migrated) by `init_db`
(`src/main.py` lines 60–76; the later ALTERs add nothing new). -/
def usersCreateCols : List String :=
  ["user_id", "username", "full_name", "joined_at", "subscription_status",
   "subscription_expiry", "subscription_start_date", "last_completed_day",
   "current_self", "fear", "dream", "core_values", "vision"]

/-- Columns requested by the morning SELECT (`src/main.py` line 1655). -/
def morningSelectCols : List String :=
  ["user_id", "full_name", "dream", "fear", "subscription_start_date", "subscription_status"]

/-- Columns requested by the evening SELECT (`src/main.py` line 1711). -/
def eveningSelectCols : List String := ["user_id", "full_name", "price"]

/-- The morning broadcast (`src/main.py` lines 1649–1703). The outer try
wraps the SELECT: if any requested column is missing from the `users`
table the whole scan raises, is caught by the outer except, and nobody is
attempted (`[]`). Otherwise every fetched user is processed by the
try-wrapped per-user body, whose failures are `caught` values. The
collaborator and transport outcomes may differ per user (`gigaO`,
`sendO` are keyed by user id). -/
def morning_protocol (creds : Bool) (gigaO : Nat → Except String String)
    (sendO : Nat → Option String) (now : Int) (cols : List String)
    (users : List UserRow) : List (Nat × MorningResult) :=
  if morningSelectCols.all (fun c => cols.contains c) then
    users.map (fun u => (u.user_id, morning_user creds (gigaO u.user_id) (sendO u.user_id) now u))
  else []

/-- A `users` row as the evening SELECT would read it. -/
structure EveningRow where
  user_id : Nat
  full_name : Option String
  price : Option String
  deriving DecidableEq

/-- Outcome of one evening-loop iteration for one user. -/
inductive SendResult where
  | sent (msg : String)
  | caught (err : String)
  deriving DecidableEq

/-- Static evening text (`src/main.py` line 1723). -/
def eveningStatic : String := "🌙 **22:00. ОТЧЕТ.**\nТы сделал то, что должен был?"

/-- Per-user body of `evening_report` (`src/main.py` lines 1714–1737). -/
def evening_user (creds : Bool) (giga : Except String String) (sendErr : Option String)
    (_u : EveningRow) : SendResult :=
  if creds then
    match giga with
    | Except.error e => SendResult.caught e
    | Except.ok t =>
        match sendErr with
        | none => SendResult.sent (clean_format t)
        | some e => SendResult.caught e
  else
    match sendErr with
    | none => SendResult.sent eveningStatic
    | some e => SendResult.caught e

/-- The evening broadcast (`src/main.py` lines 1705–1740). Its SELECT
asks for `user_id, full_name, price`; if any of those columns is absent
from the `users` table the scan raises before the loop and the outer
except swallows it, so nobody is attempted. -/
def evening_report (creds : Bool) (gigaO : Nat → Except String String)
    (sendO : Nat → Option String) (cols : List String)
    (users : List EveningRow) : List (Nat × SendResult) :=
  if eveningSelectCols.all (fun c => cols.contains c) then
    users.map (fun u => (u.user_id, evening_user creds (gigaO u.user_id) (sendO u.user_id) u))
  else []

/-! ## Database schema and `init_db` -/

/-- A sqlite table: column names plus opaque row data (a cell per column). -/
structure Table where
  cols : List String
  rows : List (List (Option String))
  deriving DecidableEq

/-- The four tables touched by `init_db`. `none` means the table does not
exist yet. -/
structure Schema where
  users : Option Table
  stats : Option Table
  user_wins : Option Table
  contracts : Option Table
  deriving DecidableEq

/-- `CREATE TABLE IF NOT EXISTS`: a no-op on an existing table, otherwise
an empty table with the given columns. -/
def createTableIfAbsent (t : Option Table) (cols : List String) : Table :=
  match t with
  | some tb => tb
  | none => { cols := cols, rows := [] }

/-- `ALTER TABLE ... ADD COLUMN c` wrapped in try/except: a no-op when
the column exists (the duplicate-column error is swallowed), otherwise
the column is appended and every existing row gains a NULL cell. -/
def addColumnIfAbsent (tb : Table) (c : String) : Table :=
  if c ∈ tb.cols then tb
  else { cols := tb.cols ++ [c], rows := tb.rows.map (fun r => r ++ [none]) }

/-- Columns of the `stats` table CREATE (`src/main.py` lines 79–86). -/
def statsCreateCols : List String :=
  ["user_id", "date", "energy_level", "productivity_level"]

/-- Columns of the `user_wins` table CREATE (lines 120–127). -/
def userWinsCreateCols : List String := ["id", "user_id", "win_text", "created_at"]

/-- Columns of the `contracts` table CREATE (lines 130–140). -/
def contractsCreateCols : List String :=
  ["id", "user_id", "goal", "deadline", "stake", "status", "created_at"]

/-- The `required_columns` healing loop of `init_db` (line 111). -/
def requiredColumns : List String :=
  ["username", "full_name", "current_self", "fear", "dream", "core_values", "vision"]

/-- `init_db` (`src/main.py` lines 50–143) on a healthy database (the
exception path at lines 144–160 is not reached): create the four tables
if absent, then run the add-column-if-absent migrations in source order. -/
def init_db (s : Schema) : Schema :=
  let users0 := createTableIfAbsent s.users usersCreateCols
  let stats0 := createTableIfAbsent s.stats statsCreateCols
  let stats1 := addColumnIfAbsent stats0 "energy_level"
  let stats2 := addColumnIfAbsent stats1 "productivity_level"
  let users1 := addColumnIfAbsent users0 "subscription_start_date"
  let users2 := addColumnIfAbsent users1 "last_completed_day"
  let users3 := requiredColumns.foldl addColumnIfAbsent users2
  let wins0 := createTableIfAbsent s.user_wins userWinsCreateCols
  let contracts0 := createTableIfAbsent s.contracts contractsCreateCols
  { users := some users3, stats := some stats2,
    user_wins := some wins0, contracts := some contracts0 }

/-! ## History cache and quick wins -/

/-- The in-memory `HISTORY_CACHE` (`src/main.py` line 164): per user id, the
set of normalized win texts, modelled as a duplicate-free list. -/
abbrev HistoryCache := List (Nat × List (List Nat))

/-- `HISTORY_CACHE[uid].add(w)` with dict auto-vivification, as performed
by `load_history_to_cache` (lines 195–198). -/
def cacheAdd : HistoryCache → Nat → List Nat → HistoryCache
  | [], uid, w => [(uid, [w])]
  | (u, s) :: rest, uid, w =>
      if u = uid then (u, if w ∈ s then s else s ++ [w]) :: rest
      else (u, s) :: cacheAdd rest uid w

/-- `load_history_to_cache` (`src/main.py` lines 181–202): fold the
persisted `user_wins` rows into the cache, storing `normalize_text` of
each raw win text. -/
def load_history_to_cache (rows : List (Nat × List Nat)) : HistoryCache :=
  rows.foldl (fun c r => cacheAdd c r.1 (normalize_text r.2)) []

/-- The `QUICK_WINS` list (`src/main.py` lines 1037–1044). -/
def QUICK_WINS : List String :=
  ["Выпей стакан воды. Прямо сейчас.",
   "Сделай 10 отжиманий. Кровь должна двигаться.",
   "Удали 3 ненужных фото из галереи.",
   "Напиши одному важному человеку \x27Спасибо\x27.",
   "Прочитай 2 страницы любой книги.",
   "Выпрями спину."]

/-- The message sent by `start_win` (`src/main.py` line 435). -/
def winMessage (task : String) : String :=
  "⚔️ \"ТВОЯ ЦЕЛЬ:\"\n\n" ++ task ++ "\n\nСделай это. Потом возвращайся."

/-- `start_win` (`src/main.py` lines 432–436), the handler of the
`feature_win` button: `task = random.choice(QUICK_WINS)` (the random draw
is modelled by the index `pick`), answer with the task message. The
handler neither reads nor writes `HISTORY_CACHE` or the `user_wins`
table, so the cache is passed through unchanged. -/
def start_win (pick : Nat) (cache : HistoryCache) : String × HistoryCache :=
  (winMessage (QUICK_WINS.getD (pick % QUICK_WINS.length) ""), cache)


/-! ## Helper lemmas -/

theorem mem_of_mem_dropWhile {α : Type} (p : α → Bool) (l : List α) (a : α)
    (h : a ∈ l.dropWhile p) : a ∈ l := by
  induction l with
  | nil => simp [List.dropWhile] at h
  | cons x xs ih =>
      cases hp : p x with
      | true =>
          simp only [List.dropWhile, hp] at h
          exact List.mem_cons_of_mem x (ih h)
      | false => simpa [List.dropWhile, hp] using h

theorem mem_of_mem_pyStrip {l : List Nat} {a : Nat} (h : a ∈ pyStrip l) : a ∈ l := by
  unfold pyStrip at h
  rw [List.mem_reverse] at h
  have h2 := mem_of_mem_dropWhile _ _ _ h
  rw [List.mem_reverse] at h2
  exact mem_of_mem_dropWhile _ _ _ h2

theorem isAsciiUpper_eq_false {n : Nat} (h : ¬(65 ≤ n ∧ n ≤ 90)) :
    isAsciiUpper n = false := by
  simp only [isAsciiUpper, Bool.and_eq_false_iff, decide_eq_false_iff_not]
  omega

theorem pyLowerCode_not_upper (a : Nat) : isAsciiUpper (pyLowerCode a) = false := by
  apply isAsciiUpper_eq_false
  unfold pyLowerCode
  split <;> rename_i h1
  · simp only [Bool.and_eq_true, decide_eq_true_eq] at h1
    omega
  · split <;> rename_i h2
    · simp only [Bool.and_eq_true, decide_eq_true_eq] at h2
      omega
    · split <;> rename_i h3
      · omega
      · simp only [Bool.and_eq_true, decide_eq_true_eq, not_and, not_le] at h1
        omega

theorem addColumnIfAbsent_eq_of_mem {tb : Table} {c : String} (h : c ∈ tb.cols) :
    addColumnIfAbsent tb c = tb := by
  simp [addColumnIfAbsent, h]

theorem mem_addColumnIfAbsent_self (tb : Table) (c : String) :
    c ∈ (addColumnIfAbsent tb c).cols := by
  by_cases h : c ∈ tb.cols
  · simp only [addColumnIfAbsent, if_pos h]
    exact h
  · simp [addColumnIfAbsent, h]

theorem mem_addColumnIfAbsent_of_mem {tb : Table} {d : String} (c : String)
    (h : d ∈ tb.cols) : d ∈ (addColumnIfAbsent tb c).cols := by
  by_cases hc : c ∈ tb.cols
  · simpa [addColumnIfAbsent, hc] using h
  · simp only [addColumnIfAbsent, hc, if_false, List.mem_append]
    exact Or.inl h

theorem mem_foldl_addColumnIfAbsent_of_mem {cs : List String} {tb : Table} {d : String}
    (h : d ∈ tb.cols) : d ∈ (cs.foldl addColumnIfAbsent tb).cols := by
  induction cs generalizing tb with
  | nil => simpa using h
  | cons c cs ih => exact ih (mem_addColumnIfAbsent_of_mem c h)

theorem mem_foldl_addColumnIfAbsent_of_mem_list {cs : List String} {tb : Table} {c : String}
    (h : c ∈ cs) : c ∈ (cs.foldl addColumnIfAbsent tb).cols := by
  induction cs generalizing tb with
  | nil => simp at h
  | cons x cs ih =>
      rcases List.mem_cons.mp h with rfl | h2
      · rw [List.foldl_cons]
        exact mem_foldl_addColumnIfAbsent_of_mem (mem_addColumnIfAbsent_self tb c)
      · rw [List.foldl_cons]
        exact ih h2

theorem foldl_addColumnIfAbsent_eq_of_mem {cs : List String} {tb : Table}
    (h : ∀ c ∈ cs, c ∈ tb.cols) : cs.foldl addColumnIfAbsent tb = tb := by
  induction cs with
  | nil => rfl
  | cons c cs ih =>
      rw [List.foldl_cons, addColumnIfAbsent_eq_of_mem (h c (List.mem_cons_self c cs))]
      exact ih fun d hd => h d (List.mem_cons_of_mem c hd)

theorem stats_chain_second (t : Table) :
    addColumnIfAbsent (addColumnIfAbsent
        (addColumnIfAbsent (addColumnIfAbsent t "energy_level") "productivity_level")
        "energy_level") "productivity_level"
      = addColumnIfAbsent (addColumnIfAbsent t "energy_level") "productivity_level" := by
  rw [addColumnIfAbsent_eq_of_mem
      (mem_addColumnIfAbsent_of_mem _ (mem_addColumnIfAbsent_self t _)),
    addColumnIfAbsent_eq_of_mem (mem_addColumnIfAbsent_self _ _)]

theorem users_chain_second (t : Table) :
    requiredColumns.foldl addColumnIfAbsent
      (addColumnIfAbsent (addColumnIfAbsent
        (requiredColumns.foldl addColumnIfAbsent
          (addColumnIfAbsent (addColumnIfAbsent t "subscription_start_date")
            "last_completed_day"))
        "subscription_start_date") "last_completed_day")
      = requiredColumns.foldl addColumnIfAbsent
          (addColumnIfAbsent (addColumnIfAbsent t "subscription_start_date")
            "last_completed_day") := by
  have h1 : "subscription_start_date" ∈
      (requiredColumns.foldl addColumnIfAbsent
        (addColumnIfAbsent (addColumnIfAbsent t "subscription_start_date")
          "last_completed_day")).cols :=
    mem_foldl_addColumnIfAbsent_of_mem
      (mem_addColumnIfAbsent_of_mem _ (mem_addColumnIfAbsent_self t _))
  have h2 : "last_completed_day" ∈
      (requiredColumns.foldl addColumnIfAbsent
        (addColumnIfAbsent (addColumnIfAbsent t "subscription_start_date")
          "last_completed_day")).cols :=
    mem_foldl_addColumnIfAbsent_of_mem (mem_addColumnIfAbsent_self _ _)
  rw [addColumnIfAbsent_eq_of_mem h1, addColumnIfAbsent_eq_of_mem h2]
  exact foldl_addColumnIfAbsent_eq_of_mem
    fun c hc => mem_foldl_addColumnIfAbsent_of_mem_list hc

/-! ## Claim theorems -/

/-- Claim C9: `init_db` is idempotent on a healthy database — a second run
with no intervening writes leaves the schema (tables, columns) and all
stored rows unchanged; the add-column-if-absent migrations are safe to
repeat. -/
theorem init_db_idempotent (s : Schema) : init_db (init_db s) = init_db s := by
  simp only [init_db, createTableIfAbsent]
  rw [stats_chain_second, users_chain_second]


/-- Claim C1: the morning trigger's day cursor — with a start timestamp `T`
the computed day number is `floor((now - T) in days) + 1` (so at
`now = T + 2.5 days = T + 216000 s` it equals 3), and without a start
timestamp it equals 1. -/
theorem day_number_spec :
    (∀ now : Int, day_number now none = 1)
    ∧ (∀ T : Int, day_number (T + 216000) (some T) = 3)
    ∧ (∀ T now : Int, day_number now (some T) = Int.fdiv (now - T) 86400 + 1) := by
  refine ⟨fun _ => rfl, fun T => ?_, fun _ _ => rfl⟩
  show Int.fdiv (T + 216000 - T) 86400 + 1 = 3
  have h : T + 216000 - T = (216000 : Int) := by ring
  rw [h]
  decide

/-- Claim C2, counterexample: "Стоп" is a recognized exit keyword
(case-insensitively), yet a user inside the Futures Contract flow who
sends it does not get their session cleared — `contract_goal` stores the
keyword as the goal and advances to the deadline step. -/
theorem exit_keyword_contract_counterexample :
    pyLowerStr "Стоп" ∈ exitKeywords
    ∧ contract_goal "Стоп" = ([contractDeadlinePrompt], FlowState.contractDeadline "Стоп")
    ∧ FlowState.contractDeadline "Стоп" ≠ FlowState.idle :=
  ⟨by decide, rfl, by decide⟩

/-- Claim C2, amended: only the Personal AI flow recognizes the exit
keywords — there, any message lowercasing to стоп/выход/stop/exit clears
the session, produces the closing message, and leaves the profile store
unchanged. Every free-text step handler of the other flows (Perspective,
Futures Contract, Legacy, Mindprint) consumes the same message as the
step's ordinary answer: the non-final steps store it and keep the session
active (Perspective problem, contract goal and deadline, Legacy memory,
Mindprint q1 and q2), and a flow's final step feeds it into the finalize
action — `contract_stake` persists it as the contract's stake,
`legacy_lessons` and `mp_q3` pass it to the generator — after which the
session is cleared only as part of that normal completion. -/
theorem exit_keyword_personal_ai_only :
    (∀ (creds : Bool) (giga : Except String String) (text : String) (store : ProfileStore),
        pyLowerStr text ∈ exitKeywords →
        process_personal_ai creds giga text store
          = (["Сеанс завершен."], FlowState.idle, store))
    ∧ (∀ text : String,
        contract_goal text = ([contractDeadlinePrompt], FlowState.contractDeadline text))
    ∧ (∀ goal text : String,
        contract_deadline goal text
          = ([contractStakePrompt], FlowState.contractStake goal text))
    ∧ (∀ (now : Int) (firstName : String) (userId : Nat)
        (goal deadline text : String) (contracts : List ContractRow),
        contract_stake none now firstName userId goal deadline text contracts
          = ([contractCertificate now firstName goal deadline text],
             FlowState.idle, contracts ++ [⟨userId, goal, deadline, text⟩]))
    ∧ (∀ text : String,
        process_perspective_problem text
          = (["Принято: \"" ++ text ++ "\"\n\n**Чьими глазами посмотрим на это?**"],
             FlowState.perspectiveProblem (some text)))
    ∧ (∀ text : String,
        legacy_memory text = ([legacyLessonsPrompt], FlowState.legacyLessons text))
    ∧ (∀ (creds : Bool) (giga : Except String String) (memory lessons : String),
        (legacy_lessons creds giga memory lessons).2 = FlowState.idle)
    ∧ (∀ text : String, mp_q1 text = ([mpQ2Prompt], FlowState.mindprintQ2 text))
    ∧ (∀ q1 text : String,
        mp_q2 q1 text = ([mpQ3Prompt], FlowState.mindprintQ3 q1 text))
    ∧ (∀ (creds : Bool) (giga : Except String String) (parsedTitle q1 q2 text : String),
        (mp_q3 creds giga parsedTitle q1 q2 text).2 = FlowState.idle) := by
  refine ⟨?_, fun _ => rfl, fun _ _ => rfl, fun _ _ _ _ _ _ _ => rfl, fun _ => rfl,
    fun _ => rfl, ?_, fun _ => rfl, fun _ _ => rfl, ?_⟩
  · intro creds giga text store h
    simp [process_personal_ai, h]
  · intro creds giga memory lessons
    cases creds <;> cases giga <;> rfl
  · intro creds giga parsedTitle q1 q2 text
    cases creds <;> cases giga <;> rfl

/-- Witness for the amended C2 theorem, at the uppercase keyword "СТОП". -/
theorem exit_keyword_personal_ai_only_witness :
    process_personal_ai true (Except.ok "ответ") "СТОП" []
      = (["Сеанс завершен."], FlowState.idle, []) :=
  exit_keyword_personal_ai_only.1 true (Except.ok "ответ") "СТОП" [] (by decide)

/-- Claim C3, counterexample: when the contracts INSERT fails at the final
Futures Contract step, the session is cleared (`state.clear()` runs after
the try/except), not left in the `waiting_for_stake` state the claim
requires. -/
theorem contract_stake_failure_clears_counterexample :
    (contract_stake (some "database is locked") 0 "Иван" 1
        "Заработать 100к" "через месяц" "Сбрею брови" []).2.1 = FlowState.idle
    ∧ FlowState.idle ≠ FlowState.contractStake "Заработать 100к" "через месяц" :=
  ⟨rfl, by decide⟩

/-- Claim C3, amended: when the store write fails at the final Futures
Contract step, the mutation is abandoned (no contract row is appended)
and the user receives the failure message, but the session is cleared
all the same — retrying the step requires restarting the flow. On success
exactly one row is appended and the session is likewise cleared. -/
theorem contract_stake_failure_behavior :
    (∀ (e : String) (now : Int) (firstName : String) (userId : Nat)
        (goal deadline stakeText : String) (contracts : List ContractRow),
        contract_stake (some e) now firstName userId goal deadline stakeText contracts
          = (["Ошибка при подписании: " ++ e], FlowState.idle, contracts))
    ∧ (∀ (now : Int) (firstName : String) (userId : Nat)
        (goal deadline stakeText : String) (contracts : List ContractRow),
        contract_stake none now firstName userId goal deadline stakeText contracts
          = ([contractCertificate now firstName goal deadline stakeText],
             FlowState.idle, contracts ++ [⟨userId, goal, deadline, stakeText⟩])) :=
  ⟨fun _ _ _ _ _ _ _ _ => rfl, fun _ _ _ _ _ _ _ => rfl⟩

/-- Claim C4, counterexample: a first successful payment at t = 0 sets
status `active` with start timestamp 0; a second successful payment one
day later, while the status is still `active`, overwrites the start
timestamp with 86400. -/
theorem subscription_start_overwrite_counterexample :
    (process_successful_payment_update 0 ⟨1, "free", none, none⟩).subscription_status
        = "active"
    ∧ (process_successful_payment_update 0 ⟨1, "free", none, none⟩).subscription_start_date
        = some 0
    ∧ (process_successful_payment_update 86400
        (process_successful_payment_update 0 ⟨1, "free", none, none⟩)).subscription_start_date
        = some 86400
    ∧ some (86400 : Int) ≠ some (0 : Int) :=
  ⟨rfl, rfl, rfl, by decide⟩

/-- Claim C4, amended: every activation (successful payment / unlock)
unconditionally sets status to `active` and the start timestamp to the
current time, with no set-once guard — so a repeated purchase at a
different time always resets the stored start timestamp. -/
theorem subscription_start_reset_on_repeat :
    (∀ (now : Int) (u : UserSub),
        (process_successful_payment_update now u).subscription_status = "active"
        ∧ (process_successful_payment_update now u).subscription_start_date = some now)
    ∧ (∀ (t1 t2 : Int) (u : UserSub), t1 ≠ t2 →
        (process_successful_payment_update t2
            (process_successful_payment_update t1 u)).subscription_start_date
          ≠ (process_successful_payment_update t1 u).subscription_start_date) := by
  refine ⟨fun now u => ⟨rfl, rfl⟩, fun t1 t2 u h => ?_⟩
  simp only [process_successful_payment_update, ne_eq, Option.some.injEq]
  omega

/-- Witness for the amended C4 theorem: payments at t = 0 and t = 86400. -/
theorem subscription_start_reset_on_repeat_witness :
    ((process_successful_payment_update 0 ⟨2, "free", none, none⟩).subscription_status
        = "active"
      ∧ (process_successful_payment_update 0 ⟨2, "free", none, none⟩).subscription_start_date
        = some 0)
    ∧ (process_successful_payment_update 86400
          (process_successful_payment_update 0 ⟨2, "free", none, none⟩)).subscription_start_date
        ≠ (process_successful_payment_update 0 ⟨2, "free", none, none⟩).subscription_start_date :=
  ⟨subscription_start_reset_on_repeat.1 0 _,
   subscription_start_reset_on_repeat.2 0 86400 _ (by decide)⟩

/-- Claim C5 (code bug): the quick-win handler never records anything —
pressing it twice leaves the in-memory history cache exactly as it was
(here: empty, not holding one entry), only emits the random task message,
and never reports "already seen". The sole deduplication in the program
is the set-insert during startup rehydration, shown by the second
conjunct: two identical raw rows rehydrate to a single cache entry. -/
theorem quick_win_never_records :
    (start_win 0 (start_win 0 ([] : HistoryCache)).2)
      = (winMessage "Выпей стакан воды. Прямо сейчас.", ([] : HistoryCache))
    ∧ load_history_to_cache [(1, [68, 111, 110, 101, 33]), (1, [68, 111, 110, 101, 33])]
      = [(1, [[100, 111, 110, 101]])] :=
  ⟨by decide, by decide⟩

/-- Claim C6, counterexample: with GigaChat credentials configured, a
failing generation call during the morning dispatch to a non-active user
is caught by the per-user handler — the iteration ends `caught` and the
user receives nothing, not the designated static fallback text. -/
theorem giga_failure_silence_counterexample :
    morning_user true (Except.error "network error") none 0
        ⟨1, some "Иван", none, none, none, "free"⟩
      = MorningResult.caught "network error" := by
  decide

/-- Claim C6, amended: a GigaChat failure is never propagated as a crash,
but the static fallback is not what the user gets: in the morning
scheduler the per-user handler catches the exception and that user
receives no message for the firing (the static text is used only when
credentials are absent), while in the Personal AI chat the user receives
an error message naming the exception. -/
theorem giga_failure_contained :
    (∀ (e : String) (sendErr : Option String) (now : Int) (u : UserRow),
        u.subscription_status ≠ "active" →
        morning_user true (Except.error e) sendErr now u = MorningResult.caught e)
    ∧ (∀ (e text : String) (store : ProfileStore),
        pyLowerStr text ∉ exitKeywords →
        process_personal_ai true (Except.error e) text store
          = (["Ошибка: " ++ e], FlowState.personalAI, store)) := by
  constructor
  · intro e sendErr now u h
    simp [morning_user, h]
  · intro e text store h
    simp [process_personal_ai, h]

/-- Witness for the amended C6 theorem. -/
theorem giga_failure_contained_witness :
    morning_user true (Except.error "таймаут") none 0 ⟨2, none, none, none, none, "free"⟩
        = MorningResult.caught "таймаут"
    ∧ process_personal_ai true (Except.error "таймаут") "Дай совет" []
        = (["Ошибка: " ++ "таймаут"], FlowState.personalAI, []) :=
  ⟨giga_failure_contained.1 "таймаут" none 0 _ (by decide),
   giga_failure_contained.2 "таймаут" "Дай совет" [] (by decide)⟩

/-- Claim C7: a user whose subscription status is not `active` never
receives the fixed `PROTOCOL_7` catalog content from the morning trigger;
the premium branch fires only for an `active` status with the day number
inside the catalog; and when the fallback is delivered to a non-active
user it always carries the locked-content notice (both with the generated
text and with the static text used without credentials). -/
theorem locked_user_fallback :
    (∀ (creds : Bool) (giga : Except String String) (sendErr : Option String)
        (now : Int) (u : UserRow), u.subscription_status ≠ "active" →
        (morning_user creds giga sendErr now u).isPremium = false)
    ∧ (∀ (creds : Bool) (giga : Except String String) (sendErr : Option String)
        (now : Int) (u : UserRow) (m : String),
        morning_user creds giga sendErr now u = MorningResult.premium m →
        u.subscription_status = "active"
          ∧ (PROTOCOL_7 (day_number now u.subscription_start_date)).isSome = true)
    ∧ (∀ (t : String) (now : Int) (u : UserRow), u.subscription_status ≠ "active" →
        morning_user true (Except.ok t) none now u
          = MorningResult.fallback ((clean_format t ++ lockNotice) ++ morningSuffix))
    ∧ (∀ (giga : Except String String) (now : Int) (u : UserRow),
        u.subscription_status ≠ "active" →
        morning_user false giga none now u
          = MorningResult.fallback ((morningStatic ++ lockNotice) ++ morningSuffix)) := by
  refine ⟨?_, ?_, ?_, ?_⟩
  · intro creds giga sendErr now u h
    simp only [morning_user, if_neg h]
    cases creds <;> cases giga <;> cases sendErr <;> rfl
  · intro creds giga sendErr now u m hm
    simp only [morning_user] at hm
    by_cases hs : u.subscription_status = "active"
    · rw [if_pos hs] at hm
      refine ⟨hs, ?_⟩
      cases hp : PROTOCOL_7 (day_number now u.subscription_start_date) with
      | some c => rfl
      | none =>
          rw [hp] at hm
          cases creds <;> cases giga <;> cases sendErr <;> simp at hm
    · rw [if_neg hs] at hm
      cases creds <;> cases giga <;> cases sendErr <;> simp at hm
  · intro t now u h
    simp [morning_user, h]
  · intro giga now u h
    simp [morning_user, h]

set_option maxRecDepth 8192 in
/-- Witness for the C7 theorem: a free user (status "free") on day 1, and
an active user on day 1 for the premium-branch conjunct. -/
theorem locked_user_fallback_witness :
    (morning_user true (Except.ok "Подъем!") none 0
        ⟨1, some "Иван", none, none, none, "free"⟩).isPremium = false
    ∧ ((⟨3, none, none, none, some 0, "active"⟩ : UserRow).subscription_status = "active"
        ∧ (PROTOCOL_7 (day_number 0
            (⟨3, none, none, none, some 0, "active"⟩ : UserRow).subscription_start_date)).isSome
          = true)
    ∧ morning_user true (Except.ok "Подъем!") none 0
          ⟨1, some "Иван", none, none, none, "free"⟩
        = MorningResult.fallback ((clean_format "Подъем!" ++ lockNotice) ++ morningSuffix)
    ∧ morning_user false (Except.ok "Подъем!") none 0
          ⟨1, some "Иван", none, none, none, "free"⟩
        = MorningResult.fallback ((morningStatic ++ lockNotice) ++ morningSuffix) :=
  ⟨locked_user_fallback.1 true (Except.ok "Подъем!") none 0 _ (by decide),
   locked_user_fallback.2.1 true (Except.ok "Подъем!") none 0
     ⟨3, none, none, none, some 0, "active"⟩
     ((PROTOCOL_7 (day_number 0 (some 0))).elim ""
       (fun c => premiumMessage (day_number 0 (some 0)) c.1 c.2 (pyStr none) ++ morningSuffix))
     (by decide),
   locked_user_fallback.2.2.1 "Подъем!" 0 _ (by decide),
   locked_user_fallback.2.2.2 (Except.ok "Подъем!") 0 _ (by decide)⟩

/-- Claim C8 (code bug): the morning scan does attempt every fetched user
regardless of per-user collaborator or transport failures (first
conjunct), but the evening scan's SELECT asks for a `price` column that
the `users` table created by `init_db` does not have, so on the real
schema every evening firing aborts wholesale before attempting anyone
(second and third conjuncts). -/
theorem broadcast_attempts :
    (∀ (creds : Bool) (gigaO : Nat → Except String String) (sendO : Nat → Option String)
        (now : Int) (users : List UserRow),
        (morning_protocol creds gigaO sendO now usersCreateCols users).map Prod.fst
          = users.map UserRow.user_id)
    ∧ eveningSelectCols.all (fun c => usersCreateCols.contains c) = false
    ∧ evening_report true (fun _ => Except.ok "Отчет?") (fun _ => none) usersCreateCols
        [⟨1, some "Иван", none⟩] = [] := by
  refine ⟨?_, by decide, by decide⟩
  intro creds gigaO sendO now users
  simp only [morning_protocol]
  rw [if_pos (by decide), List.map_map]
  rfl

/-- Claim C10: `normalize_text` lower-cases its input and deletes every
`string.punctuation` character, so its output contains no ASCII uppercase
letter and no ASCII punctuation character. -/
theorem normalize_text_no_upper_no_punct (s : List Nat) :
    (normalize_text s).all (fun c => !isAsciiUpper c && !pyPunct c) = true := by
  rw [List.all_eq_true]
  intro c hc
  simp only [normalize_text, List.mem_filter, Bool.not_eq_true'] at hc
  obtain ⟨hmem, hp⟩ := hc
  have h2 : c ∈ s.map pyLowerCode := mem_of_mem_pyStrip hmem
  rw [List.mem_map] at h2
  obtain ⟨a, -, rfl⟩ := h2
  simp only [Bool.and_eq_true, Bool.not_eq_true']
  exact ⟨pyLowerCode_not_upper a, hp⟩

end Couch
